import Mathlib

/-!
Verification of the mind-map layout/render pipeline and the infographic card
renderer of the Gemini Visualizer repository.

The embedding follows the TypeScript source:
* `types.ts` — the data model (`NodeData`, `LinkData`, `GraphData`,
  `InfographicItem`).
* `MindMapGraph` component — simulation setup (guard for empty graphs, force
  configuration incl. `forceCollide(60)`), `getColor`, `getRadius`, and the
  SVG render of links and node glyphs.
* `InfographicView` component — `IconMap` and the icon lookup with fallback.
* `App` — the root-title fallback string.

The d3 library itself (id-based link resolution inside `d3.forceLink`, and the
alpha-decay loop inside `d3.forceSimulation`) is an external dependency whose
code is not part of the repository; those two pieces are modelled from the
specification text and marked as such in their doc comments.
-/

/-! ## Data model (types.ts) -/

/-- `NodeData` from types.ts: id, label, optional numeric group. -/
structure NodeData where
  id : String
  label : String
  group : Option Int
  deriving Repr, DecidableEq

/-- `LinkData` from types.ts: source and target are node ids (strings). -/
structure LinkData where
  source : String
  target : String
  deriving Repr, DecidableEq

/-- `GraphData` from types.ts. -/
structure GraphData where
  nodes : List NodeData
  links : List LinkData
  deriving Repr, DecidableEq

/-- `SimulationNode` from the MindMapGraph component: the deep copy of a
`NodeData` that the d3 simulation owns and mutates. `x`, `y` are the
positions written by the engine (absent before the engine assigns them);
`vx`, `vy` are the engine-owned velocity fields that d3 adds to every
simulation node and that the renderer never reads. -/
structure SimulationNode where
  id : String
  label : String
  group : Option Int
  x : Option ℚ
  y : Option ℚ
  vx : Option ℚ
  vy : Option ℚ
  deriving Repr, DecidableEq

/-- One endpoint of a `SimulationLink`: either still the raw id string
(unresolved) or a resolved node (d3 replaces the string with the node
object when the id matches a node). -/
inductive LinkEnd where
  | unresolved (id : String)
  | resolved (node : SimulationNode)
  deriving Repr, DecidableEq

/-- `SimulationLink` from the MindMapGraph component: `source`/`target` are
`string | SimulationNode`. -/
structure SimulationLink where
  source : LinkEnd
  target : LinkEnd
  deriving Repr, DecidableEq

/-! ## Visual attribute functions (MindMapGraph) -/

/-- `getColor` from MindMapGraph. The TypeScript signature is
`getColor = (group: number = 2)`: a missing group defaults to `2` at the
call site, so the `Option Int` argument models `getColor(node.group)`.
Group 1 is indigo, group 2 pink, anything else blue, each with a dark and a
light variant (the function closes over `isDarkMode`, here a parameter). -/
def getColor (isDarkMode : Bool) (group : Option Int) : String :=
  let g := group.getD 2
  if g = 1 then (if isDarkMode then "#818cf8" else "#6366f1")
  else if g = 2 then (if isDarkMode then "#f472b6" else "#ec4899")
  else (if isDarkMode then "#60a5fa" else "#3b82f6")

/-- `getRadius` from MindMapGraph: `(group: number = 2)`, group 1 ↦ 50,
group 2 ↦ 35, anything else ↦ 25; a missing group defaults to 2. -/
def getRadius (group : Option Int) : Nat :=
  let g := group.getD 2
  if g = 1 then 50
  else if g = 2 then 35
  else 25

/-- The radius the collision force uses for a node. The source constructs the
force as `d3.forceCollide(60)`: the constant 60 for every node, independent
of the node and of its group. -/
def collideRadius (_n : SimulationNode) : Nat := 60

/-- The minimum center-to-center distance the collision force enforces for a
pair of nodes: the sum of their collision radii. -/
def minCenterDistance (n m : SimulationNode) : Nat :=
  collideRadius n + collideRadius m

/-! ## Icon lookup (InfographicView) -/

/-- The glyph components imported from heroicons and referenced by
`IconMap` in InfographicView. -/
inductive IconGlyph where
  | chartBar
  | lightBulb
  | userGroup
  | globeAlt
  | clock
  | shieldCheck
  | trophy
  | sparkles
  deriving Repr, DecidableEq

/-- `IconMap` from InfographicView: the string-keyed record mapping category
keys to glyph components; a key not in the record yields no component
(JavaScript property access returning `undefined`). -/
def IconMap (key : String) : Option IconGlyph :=
  if key = "chart" then some .chartBar
  else if key = "bulb" then some .lightBulb
  else if key = "users" then some .userGroup
  else if key = "globe" then some .globeAlt
  else if key = "time" then some .clock
  else if key = "shield" then some .shieldCheck
  else if key = "target" then some .trophy
  else if key = "default" then some .sparkles
  else none

/-- The icon chosen for a card: `IconMap[item.icon] || IconMap.default` in
InfographicView. Glyph components are always truthy, so the fallback fires
exactly when the key is absent from the record. -/
def cardIcon (key : String) : IconGlyph :=
  (IconMap key).getD .sparkles

/-! ## Root title fallback (App.tsx) -/

/-- JavaScript `s || d` on an optional string: the default fires when the
value is absent or the empty string (both falsy). -/
def jsStringOr (s : Option String) (d : String) : String :=
  match s with
  | some v => if v = "" then d else v
  | none => d

/-- The mind-map heading in App:
`graphData.nodes.find(n => n.group === 1)?.label || "Chủ đề chính"`. -/
def rootTitle (nodes : List NodeData) : String :=
  jsStringOr ((nodes.find? (fun n => n.group == some 1)).map (·.label)) "Chủ đề chính"

/-! ## Claim theorems: visual attributes, icons, root title -/

/-- Claim C2, as stated by the spec: the collision radius used for a node
equals the group-dependent visual radius `getRadius`. This fails: the source
passes the constant 60 to `d3.forceCollide`, so a leaf node (group 3, visual
radius 25) gets collision radius 60. -/
theorem collide_radius_not_group_dependent :
    collideRadius
        { id := "leaf", label := "Leaf", group := some 3,
          x := none, y := none, vx := none, vy := none } = 60 ∧
      getRadius (some 3) = 25 ∧
      collideRadius
          { id := "leaf", label := "Leaf", group := some 3,
            x := none, y := none, vx := none, vy := none } ≠
        getRadius (some 3) := by
  refine ⟨rfl, rfl, ?_⟩
  decide

/-- Claim C2, amended: the collision force uses the single fixed radius 60
for every node, so the enforced minimum center-to-center distance is 120 for
every pair, independent of the nodes and their groups; `getRadius`
(root 50, branch 35, leaf 25) is used only for the visual glyph size. -/
theorem collide_radius_uniform (n m : SimulationNode) :
    collideRadius n = 60 ∧
      minCenterDistance n m = 120 ∧
      getRadius (some 1) = 50 ∧ getRadius (some 2) = 35 ∧ getRadius (some 3) = 25 :=
  ⟨rfl, rfl, rfl, rfl, rfl⟩

/-- Claim C3, as stated by the spec: each of root, branch, leaf and default
(no group) gets a distinct hue. This fails: a node with no group takes the
parameter default 2 inside `getColor`, hence the branch hue, in the light
theme (and likewise in the dark theme). -/
theorem default_color_equals_branch_color :
    getColor false none = getColor false (some 2) ∧
      getColor false none = "#ec4899" :=
  ⟨rfl, rfl⟩

/-- Claim C3, amended: in each theme the three recognized groups 1, 2 and 3
get pairwise distinct colors, but there is no distinct fourth default hue: a
node with no group gets the branch color (the parameter defaults to 2), and
any group other than 1 and 2 gets the leaf color. -/
theorem getColor_distinguishes_recognized_groups
    (dark : Bool) (g : Int) (h1 : g ≠ 1) (h2 : g ≠ 2) :
    getColor dark (some 1) ≠ getColor dark (some 2) ∧
      getColor dark (some 1) ≠ getColor dark (some 3) ∧
      getColor dark (some 2) ≠ getColor dark (some 3) ∧
      getColor dark none = getColor dark (some 2) ∧
      getColor dark (some g) = getColor dark (some 3) := by
  refine ⟨?_, ?_, ?_, ?_, ?_⟩
  · cases dark <;> decide
  · cases dark <;> decide
  · cases dark <;> decide
  · cases dark <;> rfl
  · simp only [getColor, Option.getD]
    rw [if_neg h1, if_neg h2]
    norm_num

/-- Witness for `getColor_distinguishes_recognized_groups` at the concrete
unrecognized group 7 in the light theme. -/
theorem getColor_distinguishes_recognized_groups_witness :
    getColor false (some 1) ≠ getColor false (some 2) ∧
      getColor false (some 1) ≠ getColor false (some 3) ∧
      getColor false (some 2) ≠ getColor false (some 3) ∧
      getColor false none = getColor false (some 2) ∧
      getColor false (some 7) = getColor false (some 3) :=
  getColor_distinguishes_recognized_groups false 7 (by decide) (by decide)

/-- Claim C4: when no node carries group 1, the heading falls back to the
defined string "Chủ đề chính", never an empty or undefined label. -/
theorem root_title_fallback
    (nodes : List NodeData) (hroot : ∀ n ∈ nodes, n.group ≠ some 1) :
    rootTitle nodes = "Chủ đề chính" ∧ rootTitle nodes ≠ "" := by
  have hfind : nodes.find? (fun n => n.group == some 1) = none := by
    rw [List.find?_eq_none]
    intro n hn
    simpa using hroot n hn
  constructor
  · simp [rootTitle, hfind, jsStringOr]
  · simp [rootTitle, hfind, jsStringOr]

/-- Witness for `root_title_fallback` on a concrete graph whose only nodes
are a branch and a leaf. -/
theorem root_title_fallback_witness :
    rootTitle [⟨"a", "A", some 2⟩, ⟨"b", "B", none⟩] = "Chủ đề chính" ∧
      rootTitle [⟨"a", "A", some 2⟩, ⟨"b", "B", none⟩] ≠ "" :=
  root_title_fallback [⟨"a", "A", some 2⟩, ⟨"b", "B", none⟩] (by decide)

/-- Claim C5: an unrecognized icon key renders with the default glyph
(SparklesIcon) — the lookup is total, so the icon cell is never blank and no
error is raised — and every recognized key maps to its designated glyph. -/
theorem card_icon_fallback (key : String) (h : IconMap key = none) :
    cardIcon key = .sparkles ∧
      cardIcon "chart" = .chartBar ∧
      cardIcon "bulb" = .lightBulb ∧
      cardIcon "users" = .userGroup ∧
      cardIcon "globe" = .globeAlt ∧
      cardIcon "time" = .clock ∧
      cardIcon "shield" = .shieldCheck ∧
      cardIcon "target" = .trophy ∧
      cardIcon "default" = .sparkles := by
  refine ⟨?_, rfl, rfl, rfl, rfl, rfl, rfl, rfl, rfl⟩
  simp [cardIcon, h]

/-- Witness for `card_icon_fallback` at the concrete key "unknown-key". -/
theorem card_icon_fallback_witness :
    cardIcon "unknown-key" = .sparkles ∧
      cardIcon "chart" = .chartBar ∧
      cardIcon "bulb" = .lightBulb ∧
      cardIcon "users" = .userGroup ∧
      cardIcon "globe" = .globeAlt ∧
      cardIcon "time" = .clock ∧
      cardIcon "shield" = .shieldCheck ∧
      cardIcon "target" = .trophy ∧
      cardIcon "default" = .sparkles :=
  card_icon_fallback "unknown-key" (by decide)

/-! ## Simulation setup (MindMapGraph useEffect) -/

/-- The deep copy `data.nodes.map(n => ({ ...n }))` performed at the start of
the effect; the engine has not yet assigned positions or velocities. -/
def toSimulationNode (n : NodeData) : SimulationNode :=
  { id := n.id, label := n.label, group := n.group,
    x := none, y := none, vx := none, vy := none }

/-- Modelled from the spec: the id-based endpoint resolution inside
`d3.forceLink(initialLinks).id(d => d.id)` is d3 library code, not part of
this repository. Per the specification, a link endpoint whose id matches a
node resolves to that node, and an unresolved reference is left as the raw
string (to be dropped at render time), treated as a non-fatal data error. -/
def resolveEnd (nodes : List SimulationNode) (i : String) : LinkEnd :=
  match nodes.find? (fun n => n.id == i) with
  | some n => .resolved n
  | none => .unresolved i

/-- Resolution of one copied link against the simulation node list. -/
def resolveLink (nodes : List SimulationNode) (l : LinkData) : SimulationLink :=
  { source := resolveEnd nodes l.source, target := resolveEnd nodes l.target }

/-- The force configuration built in the effect: link distance 120, many-body
charge −400, centering at (width/2, height/2), collision radius 60. -/
structure ForceConfig where
  linkDistance : Nat
  chargeStrength : Int
  centerX : ℚ
  centerY : ℚ
  collideRadiusArg : Nat
  deriving Repr, DecidableEq

/-- Everything the effect builds when it runs: the copied node and link
arrays handed to the simulation, and the force configuration. -/
structure SimulationSetup where
  nodes : List SimulationNode
  links : List SimulationLink
  config : ForceConfig
  deriving Repr, DecidableEq

/-- The body of the `useEffect` in MindMapGraph: the guard
`if (!data || data.nodes.length === 0) return;` skips the whole setup for an
empty node list; otherwise the data is deep-copied and the simulation is
created with the four forces of the source. -/
def simulationSetup (width height : Nat) (data : GraphData) : Option SimulationSetup :=
  if data.nodes.isEmpty then none
  else
    let initialNodes := data.nodes.map toSimulationNode
    some
      { nodes := initialNodes
        links := data.links.map (resolveLink initialNodes)
        config :=
          { linkDistance := 120
            chargeStrength := -400
            centerX := (width : ℚ) / 2
            centerY := (height : ℚ) / 2
            collideRadiusArg := 60 } }

/-- The dependency array of the `useEffect`, `[data, width, height]`: the
props whose change tears down the running simulation and creates a new one.
`isDarkMode` and `showLabels` are not in the list. -/
structure MindMapGraphProps where
  data : GraphData
  width : Nat
  height : Nat
  isDarkMode : Bool
  showLabels : Bool
  deriving Repr, DecidableEq

/-- The tuple React compares between renders to decide whether the effect
(and with it the simulation) is torn down and re-created. -/
def effectDeps (p : MindMapGraphProps) : GraphData × Nat × Nat :=
  (p.data, p.width, p.height)

/-- Modelled from the spec: React re-runs an effect exactly when its
dependency array changes (library semantics, not repository code); the
dependency array itself is taken from the source. -/
def simulationRestarts (prev next : MindMapGraphProps) : Prop :=
  effectDeps prev ≠ effectDeps next

/-! ## Renderer (MindMapGraph JSX) -/

/-- JavaScript `v || d` on an optional coordinate: the default fires when the
value is absent or exactly 0 (both falsy). Used by the node transform
`translate(${node.x || width/2}, ${node.y || height/2})`. -/
def jsCoordOr (v : Option ℚ) (d : ℚ) : ℚ :=
  match v with
  | some x => if x = 0 then d else x
  | none => d

/-- The link stroke color, theme-dependent. -/
def linkStrokeColor (isDarkMode : Bool) : String :=
  if isDarkMode then "rgba(255,255,255,0.3)" else "rgba(0,0,0,0.2)"

/-- The label text color, theme-dependent. -/
def labelTextColor (isDarkMode : Bool) : String :=
  if isDarkMode then "#e2e8f0" else "#1e293b"

/-- The node circle fill, theme-dependent. -/
def nodeFill (isDarkMode : Bool) : String :=
  if isDarkMode then "rgba(30, 41, 59, 0.9)" else "rgba(255,255,255,0.9)"

/-- One rendered `<line>` element. -/
structure LineView where
  x1 : ℚ
  y1 : ℚ
  x2 : ℚ
  y2 : ℚ
  stroke : String
  strokeWidth : Nat
  deriving Repr, DecidableEq

/-- The pulsing halo circle drawn behind the root node. -/
structure HaloView where
  r : Nat
  fill : String
  opacity : ℚ
  deriving Repr, DecidableEq

/-- The main circle of a node glyph. -/
structure CircleView where
  r : Nat
  fill : String
  stroke : String
  strokeWidth : Nat
  deriving Repr, DecidableEq

/-- The label `<foreignObject>` inside a glyph, sized to the glyph's
bounding box. -/
structure LabelView where
  x : Int
  y : Int
  width : Nat
  height : Nat
  text : String
  color : String
  deriving Repr, DecidableEq

/-- One rendered node group: the translate transform, the optional root
halo, the circle, and the optional label. -/
structure NodeGlyph where
  key : String
  tx : ℚ
  ty : ℚ
  halo : Option HaloView
  circle : CircleView
  label : Option LabelView
  deriving Repr, DecidableEq

/-- The link render of MindMapGraph: a link whose source or target is still
a string is skipped (`return null`), a link with any endpoint coordinate
still undefined is skipped, and otherwise a line between the current
endpoint coordinates is produced. -/
def renderLink (isDarkMode : Bool) (link : SimulationLink) : Option LineView :=
  match link.source, link.target with
  | .resolved s, .resolved t =>
    match s.x, s.y, t.x, t.y with
    | some x1, some y1, some x2, some y2 =>
      some { x1 := x1, y1 := y1, x2 := x2, y2 := y2,
             stroke := linkStrokeColor isDarkMode, strokeWidth := 2 }
    | _, _, _, _ => none
  | _, _ => none

/-- The node render of MindMapGraph: every node produces a glyph; a missing
coordinate falls back to the corresponding canvas-center component; the halo
appears exactly for group 1; the label appears exactly when `showLabels`. -/
def renderNode (isDarkMode showLabels : Bool) (width height : Nat)
    (n : SimulationNode) : NodeGlyph :=
  { key := n.id
    tx := jsCoordOr n.x ((width : ℚ) / 2)
    ty := jsCoordOr n.y ((height : ℚ) / 2)
    halo :=
      if n.group == some 1 then
        some { r := getRadius n.group + 10, fill := getColor isDarkMode n.group,
               opacity := 1 / 5 }
      else none
    circle :=
      { r := getRadius n.group, fill := nodeFill isDarkMode,
        stroke := getColor isDarkMode n.group, strokeWidth := 3 }
    label :=
      if showLabels then
        some { x := -(getRadius n.group : Int), y := -(getRadius n.group : Int),
               width := getRadius n.group * 2, height := getRadius n.group * 2,
               text := n.label, color := labelTextColor isDarkMode }
      else none }

/-- The full SVG content produced from the current state: one line per
renderable link, one glyph per node. -/
structure Scene where
  lines : List LineView
  glyphs : List NodeGlyph
  deriving Repr, DecidableEq

/-- The render of MindMapGraph from the current `nodes`/`links` state. -/
def renderScene (isDarkMode showLabels : Bool) (width height : Nat)
    (nodes : List SimulationNode) (links : List SimulationLink) : Scene :=
  { lines := links.filterMap (renderLink isDarkMode)
    glyphs := nodes.map (renderNode isDarkMode showLabels width height) }

/-- The scene a freshly mounted MindMapGraph shows for a graph: the state
starts as empty lists (`useState([])`), the effect either skips setup (empty
node list) or installs the copied arrays. -/
def mountScene (isDarkMode showLabels : Bool) (width height : Nat)
    (data : GraphData) : Scene :=
  match simulationSetup width height data with
  | none => renderScene isDarkMode showLabels width height [] []
  | some st => renderScene isDarkMode showLabels width height st.nodes st.links

/-! ## Helper lemmas about resolution and rendering -/

/-- A link whose source is still a raw string renders no line, whatever the
target is. -/
theorem renderLink_unresolved_source (d : Bool) (i : String) (e : LinkEnd) :
    renderLink d { source := .unresolved i, target := e } = none := by
  cases e <;> rfl

/-- A link whose target is still a raw string renders no line, whatever the
source is. -/
theorem renderLink_unresolved_target (d : Bool) (i : String) (e : LinkEnd) :
    renderLink d { source := e, target := .unresolved i } = none := by
  cases e <;> rfl

/-- When no node carries the requested id, the id lookup fails. -/
theorem resolveEnd_eq_unresolved (nodes : List SimulationNode) (i : String)
    (h : ∀ n ∈ nodes, n.id ≠ i) : resolveEnd nodes i = .unresolved i := by
  unfold resolveEnd
  have hfind : nodes.find? (fun n => n.id == i) = none := by
    rw [List.find?_eq_none]
    intro n hn
    simpa using h n hn
  rw [hfind]

/-- Claim C1: a link whose source or target id matches no node id stays
unresolved under the (spec-modelled) id resolution and is dropped by the
render — it produces no line in any frame, whatever positions the engine has
assigned — while the render still emits one glyph per node; the render is a
total function, so no error is raised. -/
theorem dangling_link_dropped_all_nodes_rendered
    (isDark showLabels : Bool) (w h : Nat)
    (nodes : List SimulationNode) (links : List LinkData) (l : LinkData)
    (hmiss : (∀ n ∈ nodes, n.id ≠ l.source) ∨ (∀ n ∈ nodes, n.id ≠ l.target)) :
    renderLink isDark (resolveLink nodes l) = none ∧
      (renderScene isDark showLabels w h nodes
          (links.map (resolveLink nodes))).glyphs.length = nodes.length := by
  constructor
  · cases hmiss with
    | inl hs =>
      have := resolveEnd_eq_unresolved nodes l.source hs
      unfold resolveLink
      rw [this]
      exact renderLink_unresolved_source _ _ _
    | inr ht =>
      have := resolveEnd_eq_unresolved nodes l.target ht
      unfold resolveLink
      rw [this]
      exact renderLink_unresolved_target _ _ _
  · simp [renderScene]

/-- Witness for `dangling_link_dropped_all_nodes_rendered`: a one-node graph
with a link whose target id "missing" matches no node. -/
theorem dangling_link_dropped_witness :
    renderLink false
        (resolveLink
          [{ id := "a", label := "A", group := some 1,
             x := some 10, y := some 20, vx := none, vy := none }]
          { source := "a", target := "missing" }) = none ∧
      (renderScene false true 800 500
          [{ id := "a", label := "A", group := some 1,
             x := some 10, y := some 20, vx := none, vy := none }]
          (([{ source := "a", target := "missing" }] : List LinkData).map
            (resolveLink
              [{ id := "a", label := "A", group := some 1,
                 x := some 10, y := some 20, vx := none, vy := none }]))).glyphs.length =
        ([{ id := "a", label := "A", group := some 1,
            x := some 10, y := some 20, vx := none,
            vy := none }] : List SimulationNode).length :=
  dangling_link_dropped_all_nodes_rendered false true 800 500
    [{ id := "a", label := "A", group := some 1,
       x := some 10, y := some 20, vx := none, vy := none }]
    [{ source := "a", target := "missing" }]
    { source := "a", target := "missing" }
    (Or.inr (by decide))

/-- Claim C6: toggling `showLabels` never changes the effect dependency
tuple, so the simulation is not torn down or re-created; the simulation
restarts exactly when `data`, `width` or `height` changes; and a glyph
rendered under two label settings agrees in position, halo and circle,
differing only in whether the label is present. -/
theorem label_toggle_keeps_simulation (p q : MindMapGraphProps) (b : Bool) :
    ¬ simulationRestarts p { p with showLabels := b } ∧
      (simulationRestarts p q ↔
        p.data ≠ q.data ∨ p.width ≠ q.width ∨ p.height ≠ q.height) ∧
      ∀ (n : SimulationNode) (b1 b2 : Bool),
        (renderNode p.isDarkMode b1 p.width p.height n).tx =
            (renderNode p.isDarkMode b2 p.width p.height n).tx ∧
          (renderNode p.isDarkMode b1 p.width p.height n).ty =
            (renderNode p.isDarkMode b2 p.width p.height n).ty ∧
          (renderNode p.isDarkMode b1 p.width p.height n).halo =
            (renderNode p.isDarkMode b2 p.width p.height n).halo ∧
          (renderNode p.isDarkMode b1 p.width p.height n).circle =
            (renderNode p.isDarkMode b2 p.width p.height n).circle ∧
          (renderNode p.isDarkMode b1 p.width p.height n).label.isSome = b1 := by
  refine ⟨?_, ?_, ?_⟩
  · intro hcontra
    exact hcontra rfl
  · unfold simulationRestarts effectDeps
    constructor
    · intro hne
      by_contra hc
      push_neg at hc
      exact hne (by rw [hc.1, hc.2.1, hc.2.2])
    · intro hor heq
      rcases hor with hd | hw | hh
      · exact hd congr(($heq).1)
      · exact hw congr(($heq).2.1)
      · exact hh congr(($heq).2.2)
  · intro n b1 b2
    refine ⟨rfl, rfl, rfl, rfl, ?_⟩
    cases b1 <;> rfl

/-- Claim C7: a graph with an empty node list makes the effect return before
any simulation is created, and the freshly mounted component (state still the
initial empty arrays) renders no glyph and no line; the render is total, so
no error is raised. -/
theorem empty_graph_renders_nothing
    (isDark showLabels : Bool) (w h : Nat) (data : GraphData)
    (hempty : data.nodes = []) :
    simulationSetup w h data = none ∧
      mountScene isDark showLabels w h data = { lines := [], glyphs := [] } := by
  have hsetup : simulationSetup w h data = none := by
    unfold simulationSetup
    rw [if_pos (by simp [hempty])]
  refine ⟨hsetup, ?_⟩
  unfold mountScene
  rw [hsetup]
  rfl

/-- Witness for `empty_graph_renders_nothing`: the empty graph that still
carries one (dangling) link. -/
theorem empty_graph_renders_nothing_witness :
    simulationSetup 800 500 { nodes := [], links := [{ source := "x", target := "y" }] } =
        none ∧
      mountScene false true 800 500
          { nodes := [], links := [{ source := "x", target := "y" }] } =
        { lines := [], glyphs := [] } :=
  empty_graph_renders_nothing false true 800 500
    { nodes := [], links := [{ source := "x", target := "y" }] } rfl

/-! ## Determinism of the render (what the JSX actually reads) -/

/-- The fields of a simulation node the render reads: id (key), label,
group (size, color, halo), and the position. The engine-owned velocity
fields `vx`/`vy` are not among them. -/
structure NodeRenderInputs where
  id : String
  label : String
  group : Option Int
  x : Option ℚ
  y : Option ℚ
  deriving Repr, DecidableEq

/-- Projection of a simulation node onto the fields the render reads. -/
def nodeRenderInputs (n : SimulationNode) : NodeRenderInputs :=
  { id := n.id, label := n.label, group := n.group, x := n.x, y := n.y }

/-- The data the link render reads from a simulation link: nothing when an
endpoint is unresolved, otherwise the two endpoint positions. -/
def linkRenderInputs (l : SimulationLink) :
    Option (Option ℚ × Option ℚ × Option ℚ × Option ℚ) :=
  match l.source, l.target with
  | .resolved s, .resolved t => some (s.x, s.y, t.x, t.y)
  | _, _ => none

/-- The node render expressed on the projected inputs. -/
def glyphOfInputs (isDarkMode showLabels : Bool) (width height : Nat)
    (i : NodeRenderInputs) : NodeGlyph :=
  { key := i.id
    tx := jsCoordOr i.x ((width : ℚ) / 2)
    ty := jsCoordOr i.y ((height : ℚ) / 2)
    halo :=
      if i.group == some 1 then
        some { r := getRadius i.group + 10, fill := getColor isDarkMode i.group,
               opacity := 1 / 5 }
      else none
    circle :=
      { r := getRadius i.group, fill := nodeFill isDarkMode,
        stroke := getColor isDarkMode i.group, strokeWidth := 3 }
    label :=
      if showLabels then
        some { x := -(getRadius i.group : Int), y := -(getRadius i.group : Int),
               width := getRadius i.group * 2, height := getRadius i.group * 2,
               text := i.label, color := labelTextColor isDarkMode }
      else none }

/-- The link render expressed on the projected inputs. -/
def lineOfInputs (isDarkMode : Bool)
    (i : Option (Option ℚ × Option ℚ × Option ℚ × Option ℚ)) : Option LineView :=
  match i with
  | some (some x1, some y1, some x2, some y2) =>
    some { x1 := x1, y1 := y1, x2 := x2, y2 := y2,
           stroke := linkStrokeColor isDarkMode, strokeWidth := 2 }
  | _ => none

/-- The node render factors through the projection. -/
theorem renderNode_eq_glyphOfInputs (d b : Bool) (w h : Nat) (n : SimulationNode) :
    renderNode d b w h n = glyphOfInputs d b w h (nodeRenderInputs n) := rfl

/-- The link render factors through the projection. -/
theorem renderLink_eq_lineOfInputs (d : Bool) (l : SimulationLink) :
    renderLink d l = lineOfInputs d (linkRenderInputs l) := by
  obtain ⟨src, tgt⟩ := l
  cases src with
  | unresolved i => cases tgt <;> rfl
  | resolved s =>
    cases tgt with
    | unresolved i => rfl
    | resolved t =>
      obtain ⟨sid, slab, sgrp, sx, sy, svx, svy⟩ := s
      obtain ⟨tid, tlab, tgrp, tx, ty, tvx, tvy⟩ := t
      cases sx <;> cases sy <;> cases tx <;> cases ty <;> rfl

/-- Claim C8: the render is a function of exactly the snapshot the spec
names — node ids, labels, groups and positions, resolved link endpoint
positions, theme, label toggle and canvas size. Two states that agree on
those (they may differ in the engine-owned velocity fields `vx`/`vy`, or be
distinct copies) render to the same scene, so re-rendering a snapshot twice
yields identical output and no hidden state accumulates. -/
theorem render_idempotent_deterministic
    (d b : Bool) (w h : Nat)
    (ns1 ns2 : List SimulationNode) (ls1 ls2 : List SimulationLink)
    (hn : ns1.map nodeRenderInputs = ns2.map nodeRenderInputs)
    (hl : ls1.map linkRenderInputs = ls2.map linkRenderInputs) :
    renderScene d b w h ns1 ls1 = renderScene d b w h ns2 ls2 := by
  have hnode : ∀ ns : List SimulationNode,
      ns.map (renderNode d b w h) =
        (ns.map nodeRenderInputs).map (glyphOfInputs d b w h) := by
    intro ns
    rw [List.map_map]
    exact List.map_congr_left fun n _ => renderNode_eq_glyphOfInputs d b w h n
  have hline : ∀ ls : List SimulationLink,
      ls.filterMap (renderLink d) =
        (ls.map linkRenderInputs).filterMap (lineOfInputs d) := by
    intro ls
    rw [List.filterMap_map]
    exact List.filterMap_congr fun l _ => renderLink_eq_lineOfInputs d l
  unfold renderScene
  rw [Scene.mk.injEq]
  constructor
  · rw [hline ls1, hline ls2, hl]
  · rw [hnode ns1, hnode ns2, hn]

/-- Witness for `render_idempotent_deterministic`: two copies of the same
one-node snapshot that differ only in the engine-owned velocity fields. -/
theorem render_idempotent_deterministic_witness :
    renderScene false true 800 500
        [{ id := "a", label := "A", group := some 1,
           x := some 100, y := some 200, vx := none, vy := none }] [] =
      renderScene false true 800 500
        [{ id := "a", label := "A", group := some 1,
           x := some 100, y := some 200, vx := some 3, vy := some (-4) }] [] :=
  render_idempotent_deterministic false true 800 500
    [{ id := "a", label := "A", group := some 1,
       x := some 100, y := some 200, vx := none, vy := none }]
    [{ id := "a", label := "A", group := some 1,
       x := some 100, y := some 200, vx := some 3, vy := some (-4) }]
    [] [] rfl rfl

/-! ## Decay engine (modelled from the spec)

The alpha-decay loop lives inside `d3.forceSimulation`, library code that is
not part of this repository. The model below follows the specification: the
decay ("alpha") factor starts at 1 and shrinks geometrically every step with
the d3 default rate (ratio 0.001^(1/300) per step, so alpha reaches the
minimum threshold 0.001 after about 300 steps), and the simulation performs
no further ticks once alpha has dropped below the threshold. Values are in
fixed point with scale 10^6. -/

/-- Fixed-point scale: the value 10^6 represents alpha = 1. -/
def alphaScale : Nat := 1000000

/-- The per-step geometric ratio 0.001^(1/300) ≈ 0.977237 in fixed point. -/
def alphaRatio : Nat := 977237

/-- The minimum threshold 0.001 in fixed point: the simulation is settled
once alpha drops below this. -/
def alphaMinScaled : Nat := 1000

/-- One geometric decay step: alpha is multiplied by the ratio. -/
def alphaStep (a : Nat) : Nat := a * alphaRatio / alphaScale

/-- The engine state the decay loop maintains: the current alpha and whether
the stepper is still scheduled. -/
structure EngineState where
  alpha : Nat
  running : Bool
  deriving Repr, DecidableEq

/-- The engine starts with alpha = 1 and the stepper scheduled. -/
def engineInit : EngineState := { alpha := alphaScale, running := true }

/-- One host-clock tick: a running engine decays alpha and stops once alpha
has dropped below the threshold; a stopped engine does nothing. -/
def hostTick (s : EngineState) : EngineState :=
  if s.running then
    let a := alphaStep s.alpha
    { alpha := a, running := decide (alphaMinScaled ≤ a) }
  else s

/-- The engine state after a number of host-clock ticks. -/
def engineAfter : Nat → EngineState
  | 0 => engineInit
  | k + 1 => hostTick (engineAfter k)

/-- One decay step never increases alpha. -/
theorem alphaStep_le (a : Nat) : alphaStep a ≤ a := by
  unfold alphaStep alphaRatio alphaScale
  calc a * 977237 / 1000000 ≤ a * 1000000 / 1000000 :=
        Nat.div_le_div_right (Nat.mul_le_mul_left a (by norm_num))
    _ = a := Nat.mul_div_cancel a (by norm_num)

/-- One decay step strictly shrinks a positive alpha (geometric decay with
ratio below one). -/
theorem alphaStep_lt (a : Nat) (ha : 0 < a) : alphaStep a < a := by
  unfold alphaStep alphaRatio alphaScale
  rw [Nat.div_lt_iff_lt_mul (by norm_num : (0:Nat) < 1000000)]
  exact mul_lt_mul_of_pos_left (by norm_num) ha

/-- Alpha never increases from one tick to the next. -/
theorem engineAfter_alpha_mono (k : Nat) :
    (engineAfter (k + 1)).alpha ≤ (engineAfter k).alpha := by
  show (hostTick (engineAfter k)).alpha ≤ (engineAfter k).alpha
  unfold hostTick
  split
  · exact alphaStep_le _
  · exact le_refl _

/-- Alpha is antitone in the tick count. -/
theorem engineAfter_alpha_antitone {j k : Nat} (h : j ≤ k) :
    (engineAfter k).alpha ≤ (engineAfter j).alpha := by
  induction k with
  | zero => cases Nat.le_zero.mp h; exact le_refl _
  | succ k ih =>
    rcases Nat.lt_or_ge j (k + 1) with hlt | hge
    · exact le_trans (engineAfter_alpha_mono k) (ih (Nat.lt_succ_iff.mp hlt))
    · cases le_antisymm h hge
      exact le_refl _

/-- A stopped engine is a fixed point of the host tick: no further stepping,
no further snapshot. -/
theorem hostTick_stopped (s : EngineState) (h : s.running = false) :
    hostTick s = s := by
  unfold hostTick
  rw [h]
  simp

set_option maxRecDepth 100000 in
/-- After 300 host ticks the engine has stopped: alpha has decayed below the
threshold (979 < 1000 in fixed point), while one tick earlier it was still
running. -/
theorem engine_settles_at_300 :
    (engineAfter 300).running = false ∧
      (engineAfter 300).alpha < alphaMinScaled ∧
      (engineAfter 299).running = true := by
  refine ⟨by decide, by decide, by decide⟩

/-- Once stopped, the engine state never changes again. -/
theorem engineAfter_stable {k : Nat} (h : (engineAfter k).running = false)
    {m : Nat} (hm : k ≤ m) : engineAfter m = engineAfter k := by
  induction m with
  | zero => cases Nat.le_zero.mp hm; rfl
  | succ m ih =>
    rcases Nat.lt_or_ge k (m + 1) with hlt | hge
    · have heq : engineAfter m = engineAfter k := ih (Nat.lt_succ_iff.mp hlt)
      show hostTick (engineAfter m) = engineAfter k
      rw [heq, hostTick_stopped _ h]
    · cases le_antisymm hm hge
      rfl

/-- Claim C9: for a graph with at least one node the simulation is created,
and the (spec-modelled) decay loop self-terminates: alpha shrinks strictly at
every step while positive (geometric decay), the engine has stopped by step
300, any per-step position delta bounded by a multiple of alpha has dropped
below the corresponding small epsilon from step 300 on, and once alpha is
below the threshold the engine state never changes again — no further ticks
occur. -/
theorem simulation_self_terminates
    (w h : Nat) (g : GraphData) (hne : g.nodes ≠ [])
    (delta : Nat → Nat) (C : Nat)
    (hdamp : ∀ k, delta k ≤ C * (engineAfter k).alpha) :
    (simulationSetup w h g).isSome = true ∧
      (∀ a, 0 < a → alphaStep a < a) ∧
      (engineAfter 300).running = false ∧
      (∀ k, 300 ≤ k → delta k ≤ C * alphaMinScaled) ∧
      (∀ k, 300 ≤ k → engineAfter k = engineAfter 300) ∧
      (∀ s, s.running = false → hostTick s = s) := by
  refine ⟨?_, alphaStep_lt, engine_settles_at_300.1, ?_, ?_, hostTick_stopped⟩
  · unfold simulationSetup
    cases hg : g.nodes with
    | nil => exact absurd hg hne
    | cons a l => simp [hg]
  · intro k hk
    calc delta k ≤ C * (engineAfter k).alpha := hdamp k
      _ ≤ C * (engineAfter 300).alpha :=
        Nat.mul_le_mul_left C (engineAfter_alpha_antitone hk)
      _ ≤ C * alphaMinScaled :=
        Nat.mul_le_mul_left C (le_of_lt engine_settles_at_300.2.1)
  · intro k hk
    exact engineAfter_stable engine_settles_at_300.1 hk

/-- Witness for `simulation_self_terminates`: the one-node graph, with the
delta trajectory equal to alpha itself and the constant 1. -/
theorem simulation_self_terminates_witness :
    (simulationSetup 800 500
        { nodes := [{ id := "root", label := "Root", group := some 1 }],
          links := [] }).isSome = true ∧
      (∀ a, 0 < a → alphaStep a < a) ∧
      (engineAfter 300).running = false ∧
      (∀ k, 300 ≤ k → (engineAfter k).alpha ≤ 1 * alphaMinScaled) ∧
      (∀ k, 300 ≤ k → engineAfter k = engineAfter 300) ∧
      (∀ s, s.running = false → hostTick s = s) :=
  simulation_self_terminates 800 500
    { nodes := [{ id := "root", label := "Root", group := some 1 }], links := [] }
    (by simp) (fun k => (engineAfter k).alpha) 1
    (fun k => Nat.le_of_eq (Nat.one_mul _).symm)

/-- Claim C10: a node whose position the engine has not yet assigned is
still drawn, at the canvas center (width/2, height/2) — the glyph appears in
the scene like every other node — while a link with any endpoint coordinate
still unassigned is skipped for the frame (here: a resolved link whose
source has no x-coordinate renders no line). -/
theorem unpositioned_node_drawn_at_center
    (d b : Bool) (w h : Nat) (n : SimulationNode)
    (hx : n.x = none) (hy : n.y = none)
    (ns : List SimulationNode) (hn : n ∈ ns) (ls : List SimulationLink)
    (s t : SimulationNode) (hsx : s.x = none) :
    (renderNode d b w h n).tx = (w : ℚ) / 2 ∧
      (renderNode d b w h n).ty = (h : ℚ) / 2 ∧
      renderNode d b w h n ∈ (renderScene d b w h ns ls).glyphs ∧
      renderLink d { source := .resolved s, target := .resolved t } = none := by
  refine ⟨?_, ?_, ?_, ?_⟩
  · show jsCoordOr n.x ((w : ℚ) / 2) = (w : ℚ) / 2
    rw [hx]
    rfl
  · show jsCoordOr n.y ((h : ℚ) / 2) = (h : ℚ) / 2
    rw [hy]
    rfl
  · exact List.mem_map_of_mem _ hn
  · rw [renderLink_eq_lineOfInputs]
    show lineOfInputs d (some (s.x, s.y, t.x, t.y)) = none
    rw [hsx]
    cases s.y <;> cases t.x <;> cases t.y <;> rfl

/-- Witness for `unpositioned_node_drawn_at_center`: a freshly copied node
before the first tick, and a resolved link whose source has no position. -/
theorem unpositioned_node_drawn_at_center_witness :
    (renderNode false true 800 500
        { id := "a", label := "A", group := some 2,
          x := none, y := none, vx := none, vy := none }).tx = (800 : ℚ) / 2 ∧
      (renderNode false true 800 500
          { id := "a", label := "A", group := some 2,
            x := none, y := none, vx := none, vy := none }).ty = (500 : ℚ) / 2 ∧
      renderNode false true 800 500
          { id := "a", label := "A", group := some 2,
            x := none, y := none, vx := none, vy := none } ∈
        (renderScene false true 800 500
            [{ id := "a", label := "A", group := some 2,
               x := none, y := none, vx := none, vy := none }] []).glyphs ∧
      renderLink false
          { source := .resolved
              { id := "a", label := "A", group := some 2,
                x := none, y := none, vx := none, vy := none },
            target := .resolved
              { id := "b", label := "B", group := some 3,
                x := some 7, y := some 8, vx := none, vy := none } } = none :=
  unpositioned_node_drawn_at_center false true 800 500
    { id := "a", label := "A", group := some 2,
      x := none, y := none, vx := none, vy := none }
    rfl rfl
    [{ id := "a", label := "A", group := some 2,
       x := none, y := none, vx := none, vy := none }]
    (by simp) []
    { id := "a", label := "A", group := some 2,
      x := none, y := none, vx := none, vy := none }
    { id := "b", label := "B", group := some 3,
      x := some 7, y := some 8, vx := none, vy := none }
    rfl
